import Mathlib

/-!
Shallow embedding of the persistence core of ACSAMS (src/mongo_driver.py,
src/models.py, src/main.py) and proofs about its catalog, subscription and
usage-accounting operations.

Modelling conventions:
- MongoDB object ids are Nat; a collection is a List of documents and a
  find_one by filter is List.find? (first match).
- Python dicts keyed by permission id are association lists
  List (Nat × Nat); dict lookup is the first entry with the key.
- A raised HTTPException is an Except.error carrying the error kind of
  the raise site; a completed operation is Except.ok with the new store.
- trycastobjectId is elided: ids are already well formed Nats.
-/

/-- Closed enumeration of known API endpoints.
Modelled from the spec: the module endpoint.py defining API_Endpoint_Enum is
absent from src/; the spec describes a closed enumeration of known API
operations, and src/main.py exposes the six routes /random1 .. /random6. -/
inductive API_Endpoint_Enum where
  | random1
  | random2
  | random3
  | random4
  | random5
  | random6
deriving DecidableEq, Repr

/-- APIPermission document (src/models.py lines 27-31), id made concrete. -/
structure APIPermission where
  id : Nat
  name : String
  endpoint : API_Endpoint_Enum
  description : String
deriving DecidableEq, Repr

/-- Update payload for a permission after pydantic parsing (src/models.py
lines 33-36): all three fields are present, defaults filled in. -/
structure UpdateAPIPermission where
  name : String
  endpoint : API_Endpoint_Enum
  description : String
deriving DecidableEq, Repr

/-- Raw request body for a permission update: a field is none when the
caller did not supply it (pydantic fills the declared default). -/
structure UpdateAPIPermissionBody where
  name : Option String
  endpoint : Option API_Endpoint_Enum
  description : Option String
deriving DecidableEq, Repr

/-- Pydantic parsing of an update body, applying the declared defaults of
src/models.py lines 33-36 to every omitted field. -/
def parseUpdateAPIPermission (b : UpdateAPIPermissionBody) : UpdateAPIPermission :=
  { name := b.name.getD "RandomAPI1"
    endpoint := b.endpoint.getD API_Endpoint_Enum.random1
    description := b.description.getD "RandomAPI1 description" }

/-- APIPlan document (src/models.py lines 38-41): apilimit maps permission
ids to call ceilings. -/
structure APIPlan where
  id : Nat
  name : String
  apilimit : List (Nat × Nat)
deriving DecidableEq, Repr

/-- User document as read and written by src/mongo_driver.py.
Modelled from the spec: the version of models.py under src/ lacks the
subscription fields that mongo_driver.py dereferences; their shape follows
spec section 6 (subscribed_plan_id optional plan reference,
current_api_usage a permission-id to counter mapping). -/
structure User where
  id : Nat
  username : String
  role : String
  password : String
  subscribed_plan_id : Option Nat
  current_api_usage : List (Nat × Nat)
deriving DecidableEq, Repr

/-- Payload of a usage-statistics update.
Modelled from the spec: UpdateAPIUsageStats is imported by mongo_driver.py
but absent from src/models.py; mongo_driver.py lines 385-396 use exactly
its current_api_usage mapping (an empty mapping is falsy). -/
structure UpdateAPIUsageStats where
  current_api_usage : List (Nat × Nat)
deriving DecidableEq, Repr

/-- Error kinds, one per raise site of src/mongo_driver.py, named with the
vocabulary of spec section 7. -/
inductive Err where
  | NotFound
  | DuplicateEndpoint
  | PermissionInUse
  | EmptyLimitTable
  | UnknownPermission
  | RoleNotEligible
  | PermissionNotInPlan
  | NotSubscribed
  | UsageKeySetMismatch
deriving DecidableEq, Repr

/-- The three MongoDB collections of src/mongo_driver.py lines 19-25. -/
structure DB where
  users : List User
  permissions : List APIPermission
  plans : List APIPlan
deriving DecidableEq, Repr

/-- Dict lookup: value of the first entry with the given key. -/
def lookupKey (l : List (Nat × Nat)) (k : Nat) : Option Nat :=
  (l.find? (fun kv => kv.1 == k)).map (fun kv => kv.2)

/-- Key list of an association-list dict. -/
def keysOf (l : List (Nat × Nat)) : List Nat :=
  l.map (fun kv => kv.1)

/-- Replace the first element satisfying p by its image under f, as
find_one_and_update does on a collection. -/
def updateFirst (p : α → Bool) (f : α → α) : List α → List α
  | [] => []
  | x :: xs => if p x then f x :: xs else x :: updateFirst p f xs

/-- Increment the entry at key k by one, the dict update of
src/mongo_driver.py line 349. -/
def bumpUsage (l : List (Nat × Nat)) (k : Nat) : List (Nat × Nat) :=
  updateFirst (fun kv => kv.1 == k) (fun kv => (kv.1, kv.2 + 1)) l

/-- find_one on users by _id (src/mongo_driver.py lines 53-60). -/
def get_user_by_id_from_MongoDB (db : DB) (id : Nat) : Option User :=
  db.users.find? (fun u => u.id == id)

/-- find_one on permissions by endpoint (src/mongo_driver.py lines 64-71). -/
def get_permission_by_endpoint_from_MongoDB (db : DB) (e : API_Endpoint_Enum) :
    Option APIPermission :=
  db.permissions.find? (fun p => p.endpoint == e)

/-- find_one on permissions by _id (src/mongo_driver.py line 91). -/
def find_permission_by_id (db : DB) (id : Nat) : Option APIPermission :=
  db.permissions.find? (fun p => p.id == id)

/-- find_one on plans by _id (src/mongo_driver.py lines 173-177, without
the raise; callers handle absence). -/
def find_plan_by_id (db : DB) (id : Nat) : Option APIPlan :=
  db.plans.find? (fun pl => pl.id == id)

/-- find_one on plans with filter apilimit.id exists (src/mongo_driver.py
lines 96 and 130). -/
def plan_referencing (db : DB) (id : Nat) : Option APIPlan :=
  db.plans.find? (fun pl => (pl.apilimit.find? (fun kv => kv.1 == id)).isSome)

/-- Store-assigned identity for an inserted permission: some Nat not yet
used by the collection. -/
def freshPermId (db : DB) : Nat :=
  (db.permissions.map (fun p => p.id)).foldr max 0 + 1

/-- Store-assigned identity for an inserted plan. -/
def freshPlanId (db : DB) : Nat :=
  (db.plans.map (fun p => p.id)).foldr max 0 + 1

/-- add_permission_to_MongoDB (src/mongo_driver.py lines 73-84): reject a
duplicate endpoint, otherwise insert with a store-assigned id. -/
def add_permission_to_MongoDB (db : DB) (permission : APIPermission) : Except Err DB :=
  match get_permission_by_endpoint_from_MongoDB db permission.endpoint with
  | some _ => .error .DuplicateEndpoint
  | none =>
      .ok { db with permissions :=
              db.permissions ++ [{ permission with id := freshPermId db }] }

/-- The model_dump of an UpdateAPIPermission with None values filtered out
(src/mongo_driver.py lines 111-113): no field of UpdateAPIPermission is
Optional, so every field survives the filter. -/
structure PermSetDoc where
  name : Option String
  endpoint : Option API_Endpoint_Enum
  description : Option String
deriving DecidableEq, Repr

/-- Dump an update payload into the document passed to Mongo set. -/
def dumpUpdateAPIPermission (u : UpdateAPIPermission) : PermSetDoc :=
  { name := some u.name, endpoint := some u.endpoint, description := some u.description }

/-- Apply a Mongo set document to one stored permission: present fields are
overwritten, absent fields keep their value; _id is not part of the dump. -/
def applySetDoc (p : APIPermission) (s : PermSetDoc) : APIPermission :=
  { p with
    name := s.name.getD p.name
    endpoint := s.endpoint.getD p.endpoint
    description := s.description.getD p.description }

/-- The find_one_and_update of src/mongo_driver.py lines 116-120. -/
def applyPermUpdate (db : DB) (id : Nat) (u : UpdateAPIPermission) : DB :=
  { db with permissions :=
      (updateFirst (fun p => p.id == id)
        (fun p => applySetDoc p (dumpUpdateAPIPermission u)) db.permissions) }

/-- modify_permission_to_MongoDB (src/mongo_driver.py lines 86-123):
missing id is rejected, a permission referenced by any plan is rejected,
an endpoint change colliding with an existing permission is rejected,
otherwise the dump is set on the stored document. -/
def modify_permission_to_MongoDB (db : DB) (id : Nat) (permission : UpdateAPIPermission) :
    Except Err DB :=
  match find_permission_by_id db id with
  | none => .error .NotFound
  | some old_permission =>
    match plan_referencing db id with
    | some _ => .error .PermissionInUse
    | none =>
      if old_permission.endpoint = permission.endpoint then
        .ok (applyPermUpdate db id permission)
      else
        match get_permission_by_endpoint_from_MongoDB db permission.endpoint with
        | some _ => .error .DuplicateEndpoint
        | none => .ok (applyPermUpdate db id permission)

/-- delete_permission_in_MongoDB (src/mongo_driver.py lines 125-140): the
plan-reference check runs first, then delete_one; a deleted_count of zero
yields the 404. -/
def delete_permission_in_MongoDB (db : DB) (id : Nat) : Except Err DB :=
  match plan_referencing db id with
  | some _ => .error .PermissionInUse
  | none =>
    if (db.permissions.find? (fun p => p.id == id)).isSome then
      .ok { db with permissions := db.permissions.eraseP (fun p => p.id == id) }
    else
      .error .NotFound

/-- add_plan_to_MongoDB (src/mongo_driver.py lines 153-171): an empty
apilimit is rejected, then every key must resolve to a stored permission,
then the plan is inserted. -/
def add_plan_to_MongoDB (db : DB) (plan : APIPlan) : Except Err DB :=
  if plan.apilimit.length = 0 then .error .EmptyLimitTable
  else
    match plan.apilimit.find? (fun kv => (find_permission_by_id db kv.1).isNone) with
    | some _ => .error .UnknownPermission
    | none =>
        .ok { db with plans := db.plans ++ [{ plan with id := freshPlanId db }] }

/-- Write-back of a user document: set every non-None field of the dump of
u (id excluded) on the first stored document with that id, as the
find_one_and_update calls of src/mongo_driver.py do. A none
subscribed_plan_id is filtered out of the dump, so the stored value stays. -/
def writeUserDoc (db : DB) (u : User) : DB :=
  { db with users :=
      (updateFirst (fun w => w.id == u.id)
        (fun w =>
          { w with
            username := u.username
            role := u.role
            password := u.password
            subscribed_plan_id :=
              match u.subscribed_plan_id with
              | none => w.subscribed_plan_id
              | some x => some x
            current_api_usage := u.current_api_usage }) db.users) }

/-- subscribe_to_plan_in_MongoDB (src/mongo_driver.py lines 233-265): the
plan and the user must exist; the argument user gets subscribed_plan_id set
and current_api_usage rebuilt with a zero for every apilimit key, then its
dump is written over the stored document. No role check is performed. -/
def subscribe_to_plan_in_MongoDB (db : DB) (plan_id : Nat) (user : User) : Except Err DB :=
  match find_plan_by_id db plan_id with
  | none => .error .NotFound
  | some existing_plan =>
    match get_user_by_id_from_MongoDB db user.id with
    | none => .error .NotFound
    | some _ =>
      let user2 : User :=
        { user with
          subscribed_plan_id := some plan_id
          current_api_usage := existing_plan.apilimit.map (fun kv => (kv.1, 0)) }
      .ok (writeUserDoc db user2)

/-- update_user_API_usage_in_MongoDB (src/mongo_driver.py lines 335-365):
refetch the user by id, require the user role, require the permission id to
be a usage key and the permission endpoint to resolve in the store, then
increment the counter by one and write the user back. No comparison against
any plan limit is performed. -/
def update_user_API_usage_in_MongoDB (db : DB) (user : User) (permission : APIPermission) :
    Except Err DB :=
  match get_user_by_id_from_MongoDB db user.id with
  | none => .error .NotFound
  | some u =>
    if u.role ≠ "user" then .error .RoleNotEligible
    else
      if (lookupKey u.current_api_usage permission.id).isNone ∨
         (get_permission_by_endpoint_from_MongoDB db permission.endpoint).isNone then
        .error .PermissionNotInPlan
      else
        .ok (writeUserDoc db
          { u with current_api_usage := bumpUsage u.current_api_usage permission.id })

/-- Key sets of two usage dicts agree, the set comparison of
src/mongo_driver.py lines 389-392. -/
def sameKeySet (a b : List (Nat × Nat)) : Bool :=
  (keysOf a).all (fun k => (keysOf b).contains k) &&
  (keysOf b).all (fun k => (keysOf a).contains k)

/-- update_user_API_plan (src/mongo_driver.py lines 367-419): for the
currently subscribed plan the proposed usage table must be non-empty, of
the same size and with the same key set as the stored counters, and then
replaces them wholesale; for a different plan id it behaves as subscribe. -/
def update_user_API_plan (db : DB) (user_id : Nat) (plan_id : Nat)
    (new_usage_stats : UpdateAPIUsageStats) : Except Err DB :=
  match get_user_by_id_from_MongoDB db user_id with
  | none => .error .NotFound
  | some user =>
    if user.role ≠ "user" then .error .RoleNotEligible
    else
      match user.subscribed_plan_id with
      | none => .error .NotSubscribed
      | some current_plan =>
        if current_plan = plan_id then
          if new_usage_stats.current_api_usage.isEmpty ∨
             new_usage_stats.current_api_usage.length ≠ user.current_api_usage.length then
            .error .UsageKeySetMismatch
          else
            if sameKeySet user.current_api_usage new_usage_stats.current_api_usage then
              .ok (writeUserDoc db
                { user with current_api_usage := new_usage_stats.current_api_usage })
            else
              .error .UsageKeySetMismatch
        else
          subscribe_to_plan_in_MongoDB db plan_id user

/-- Read phase of update_user_API_usage_in_MongoDB (src/mongo_driver.py
line 340): snapshot the stored user document. -/
def recordUsageRead (db : DB) (uid : Nat) : Option User :=
  get_user_by_id_from_MongoDB db uid

/-- Write phase of update_user_API_usage_in_MongoDB (src/mongo_driver.py
lines 349-362): increment the counter of the snapshot locally and set the full
dump over the stored document. -/
def recordUsageWrite (db : DB) (u : User) (pid : Nat) : DB :=
  writeUserDoc db { u with current_api_usage := bumpUsage u.current_api_usage pid }

/-- Catalog operations of the permission collection, the sequences
quantified over by the endpoint-uniqueness invariant. -/
inductive CatalogOp where
  | createP (p : APIPermission)
  | updateP (id : Nat) (u : UpdateAPIPermission)
  | deleteP (id : Nat)
deriving Repr

/-- Run one catalog operation; a raised error leaves the store unchanged,
as every raise in src/mongo_driver.py happens before the write. -/
def applyCatalogOp (db : DB) : CatalogOp → DB
  | .createP p =>
      match add_permission_to_MongoDB db p with
      | .ok db2 => db2
      | .error _ => db
  | .updateP id u =>
      match modify_permission_to_MongoDB db id u with
      | .ok db2 => db2
      | .error _ => db
  | .deleteP id =>
      match delete_permission_in_MongoDB db id with
      | .ok db2 => db2
      | .error _ => db

/-- Run a sequence of catalog operations. -/
def runCatalog (db : DB) : List CatalogOp → DB
  | [] => db
  | op :: ops => runCatalog (applyCatalogOp db op) ops

/-- Every two distinct stored permissions have distinct endpoints. -/
def EndpointsDistinct (db : DB) : Prop :=
  (db.permissions.map (fun p => p.endpoint)).Pairwise (fun a b => a ≠ b)

instance (db : DB) : Decidable (EndpointsDistinct db) := by
  unfold EndpointsDistinct
  infer_instance

deriving instance DecidableEq for Except

/-! Helper lemmas about updateFirst, eraseP and the usage dictionaries. -/

/-- Replacing the first match keeps it the first match when f preserves the
predicate on it. -/
theorem find?_updateFirst_self {α : Type} (p : α → Bool) (f : α → α) :
    ∀ (l : List α) (a : α), l.find? p = some a → p (f a) = true →
      (updateFirst p f l).find? p = some (f a)
  | [], a, h, _ => by simp [List.find?] at h
  | x :: xs, a, h, hfa => by
    by_cases hx : p x
    · rw [List.find?_cons_of_pos xs hx] at h
      cases h
      simp [updateFirst, hx, List.find?_cons_of_pos _ hfa]
    · rw [List.find?_cons_of_neg xs (by simpa using hx)] at h
      simp only [updateFirst, if_neg hx]
      rw [List.find?_cons_of_neg _ (by simpa using hx)]
      exact find?_updateFirst_self p f xs a h hfa

/-- Mapping g over an updateFirst changes nothing when f preserves g on the
replaced element. -/
theorem map_updateFirst_eq {α β : Type} (p : α → Bool) (f : α → α) (g : α → β) :
    ∀ (l : List α) (a : α), l.find? p = some a → g (f a) = g a →
      (updateFirst p f l).map g = l.map g
  | [], a, h, _ => by simp [List.find?] at h
  | x :: xs, a, h, hga => by
    by_cases hx : p x
    · rw [List.find?_cons_of_pos xs hx] at h
      cases h
      simp [updateFirst, hx, hga]
    · rw [List.find?_cons_of_neg xs (by simpa using hx)] at h
      simp only [updateFirst, if_neg hx, List.map_cons]
      rw [map_updateFirst_eq p f g xs a h hga]

/-- Every member of an updateFirst is an original member or the image of
one under f. -/
theorem mem_updateFirst {α : Type} (p : α → Bool) (f : α → α) :
    ∀ (l : List α) (x : α), x ∈ updateFirst p f l →
      x ∈ l ∨ ∃ a, a ∈ l ∧ x = f a
  | [], x, h => by simp [updateFirst] at h
  | y :: ys, x, h => by
    by_cases hy : p y
    · simp only [updateFirst, if_pos hy, List.mem_cons] at h
      rcases h with h | h
      · exact Or.inr ⟨y, List.mem_cons_self y ys, h⟩
      · exact Or.inl (List.mem_cons_of_mem y h)
    · simp only [updateFirst, if_neg hy, List.mem_cons] at h
      rcases h with h | h
      · exact Or.inl (h ▸ List.mem_cons_self y ys)
      · rcases mem_updateFirst p f ys x h with h2 | ⟨a, ha, hx⟩
        · exact Or.inl (List.mem_cons_of_mem y h2)
        · exact Or.inr ⟨a, List.mem_cons_of_mem y ha, hx⟩

/-- Elements not matched by the predicate survive an updateFirst. -/
theorem mem_updateFirst_of_not_pred {α : Type} (p : α → Bool) (f : α → α) :
    ∀ (l : List α) (x : α), x ∈ l → p x = false → x ∈ updateFirst p f l
  | [], x, h, _ => by simp at h
  | y :: ys, x, h, hpx => by
    by_cases hy : p y
    · simp only [updateFirst, if_pos hy]
      rcases List.mem_cons.mp h with rfl | h2
      · rw [hy] at hpx; cases hpx
      · exact List.mem_cons_of_mem _ h2
    · simp only [updateFirst, if_neg hy]
      rcases List.mem_cons.mp h with rfl | h2
      · exact List.mem_cons_self _ _
      · exact List.mem_cons_of_mem _ (mem_updateFirst_of_not_pred p f ys x h2 hpx)

/-- Bumping a key turns the value of its first entry into its successor. -/
theorem lookupKey_bumpUsage_self (l : List (Nat × Nat)) (k c : Nat)
    (h : lookupKey l k = some c) :
    lookupKey (bumpUsage l k) k = some (c + 1) := by
  cases hf : l.find? (fun kv => kv.1 == k) with
  | none => simp [lookupKey, hf] at h
  | some kv =>
    have hval : kv.2 = c := by simpa [lookupKey, hf] using h
    have hpkv : (fun kv : Nat × Nat => kv.1 == k) kv = true :=
      List.find?_some (p := fun kv : Nat × Nat => kv.1 == k) hf
    have hres := find?_updateFirst_self (fun kv => kv.1 == k)
      (fun kv => (kv.1, kv.2 + 1)) l kv hf (by simpa using hpkv)
    simp [bumpUsage, lookupKey, hres, hval]

/-- Bumping a key leaves the lookup of every other key unchanged. -/
theorem lookupKey_bumpUsage_other :
    ∀ (l : List (Nat × Nat)) (k k2 : Nat), k2 ≠ k →
      lookupKey (bumpUsage l k) k2 = lookupKey l k2
  | [], _, _, _ => rfl
  | kv :: l, k, k2, hne => by
    by_cases hk : (kv.1 == k)
    · have hk2 : (kv.1 == k2) = false := by
        have h1 : kv.1 = k := by simpa using hk
        simp [h1, Ne.symm hne]
      simp only [bumpUsage, updateFirst, if_pos hk, lookupKey]
      rw [List.find?_cons_of_neg (p := fun kv : Nat × Nat => kv.1 == k2) _ (by simp [hk2]),
        List.find?_cons_of_neg (p := fun kv : Nat × Nat => kv.1 == k2) _ (by simp [hk2])]
    · simp only [bumpUsage, updateFirst, if_neg hk, lookupKey]
      by_cases hk2 : (kv.1 == k2)
      · rw [List.find?_cons_of_pos (p := fun kv : Nat × Nat => kv.1 == k2) _ hk2,
          List.find?_cons_of_pos (p := fun kv : Nat × Nat => kv.1 == k2) _ hk2]
      · rw [List.find?_cons_of_neg (p := fun kv : Nat × Nat => kv.1 == k2) _ (by simpa using hk2),
          List.find?_cons_of_neg (p := fun kv : Nat × Nat => kv.1 == k2) _ (by simpa using hk2)]
        exact lookupKey_bumpUsage_other l k k2 hne

/-- Replacing one element whose g-image becomes a value fresh for the whole
list preserves pairwise distinctness of g-images. -/
theorem pairwise_ne_map_updateFirst {α β : Type} (p : α → Bool) (f : α → α)
    (g : α → β) (e : β) (hf : ∀ x, g (f x) = e) :
    ∀ l : List α, (l.map g).Pairwise (fun a b => a ≠ b) →
      (∀ x ∈ l, g x ≠ e) →
      ((updateFirst p f l).map g).Pairwise (fun a b => a ≠ b)
  | [], _, _ => by simp [updateFirst]
  | x :: xs, hpw, he => by
    rw [List.map_cons, List.pairwise_cons] at hpw
    by_cases hx : p x
    · simp only [updateFirst, if_pos hx, List.map_cons, List.pairwise_cons]
      refine ⟨?_, hpw.2⟩
      intro y hy
      rcases List.mem_map.mp hy with ⟨z, hz, rfl⟩
      rw [hf x]
      exact fun hcontra => he z (List.mem_cons_of_mem _ hz) hcontra.symm
    · simp only [updateFirst, if_neg hx, List.map_cons, List.pairwise_cons]
      constructor
      · intro y hy
        rcases List.mem_map.mp hy with ⟨z, hz, rfl⟩
        rcases mem_updateFirst p f xs z hz with hz2 | ⟨a, _, rfl⟩
        · exact hpw.1 (g z) (List.mem_map_of_mem g hz2)
        · rw [hf a]
          exact he x (List.mem_cons_self _ _)
      · exact pairwise_ne_map_updateFirst p f g e hf xs hpw.2
          (fun z hz => he z (List.mem_cons_of_mem _ hz))

/-- Success inversion for add_permission_to_MongoDB. -/
theorem add_permission_ok (db : DB) (p0 : APIPermission) (db2 : DB)
    (h : add_permission_to_MongoDB db p0 = .ok db2) :
    get_permission_by_endpoint_from_MongoDB db p0.endpoint = none ∧
    db2 = { db with permissions :=
              db.permissions ++ [{ p0 with id := freshPermId db }] } := by
  unfold add_permission_to_MongoDB at h
  cases hf : get_permission_by_endpoint_from_MongoDB db p0.endpoint with
  | some q => rw [hf] at h; cases h
  | none =>
    rw [hf] at h
    injection h with h
    exact ⟨rfl, h.symm⟩

/-- Success inversion for modify_permission_to_MongoDB. -/
theorem modify_permission_ok (db : DB) (id : Nat) (u : UpdateAPIPermission) (db2 : DB)
    (h : modify_permission_to_MongoDB db id u = .ok db2) :
    ∃ old, find_permission_by_id db id = some old ∧
      plan_referencing db id = none ∧
      db2 = applyPermUpdate db id u ∧
      (old.endpoint = u.endpoint ∨
        get_permission_by_endpoint_from_MongoDB db u.endpoint = none) := by
  unfold modify_permission_to_MongoDB at h
  cases hold : find_permission_by_id db id with
  | none => simp only [hold] at h; cases h
  | some old =>
    simp only [hold] at h
    cases href : plan_referencing db id with
    | some _ => simp only [href] at h; cases h
    | none =>
      simp only [href] at h
      by_cases heq : old.endpoint = u.endpoint
      · rw [if_pos heq] at h
        injection h with h
        exact ⟨old, rfl, rfl, h.symm, Or.inl heq⟩
      · rw [if_neg heq] at h
        cases hdup : get_permission_by_endpoint_from_MongoDB db u.endpoint with
        | some _ => simp only [hdup] at h; cases h
        | none =>
          simp only [hdup] at h
          injection h with h
          exact ⟨old, rfl, rfl, h.symm, Or.inr rfl⟩

/-- Success inversion for delete_permission_in_MongoDB. -/
theorem delete_permission_ok (db : DB) (id : Nat) (db2 : DB)
    (h : delete_permission_in_MongoDB db id = .ok db2) :
    db2 = { db with permissions := db.permissions.eraseP (fun p => p.id == id) } := by
  unfold delete_permission_in_MongoDB at h
  cases href : plan_referencing db id with
  | some _ => rw [href] at h; cases h
  | none =>
    rw [href] at h
    by_cases hex : (db.permissions.find? (fun p => p.id == id)).isSome
    · rw [if_pos hex] at h
      injection h with h
      exact h.symm
    · rw [if_neg hex] at h; cases h

/-- Creating a permission preserves endpoint distinctness. -/
theorem endpoints_distinct_add (db : DB) (p0 : APIPermission) (db2 : DB)
    (h : add_permission_to_MongoDB db p0 = .ok db2)
    (hd : EndpointsDistinct db) : EndpointsDistinct db2 := by
  obtain ⟨hnone, rfl⟩ := add_permission_ok db p0 db2 h
  unfold EndpointsDistinct at *
  simp only [List.map_append, List.map_cons, List.map_nil]
  rw [List.pairwise_append]
  refine ⟨hd, by simp, ?_⟩
  intro a ha b hb
  rcases List.mem_map.mp ha with ⟨q, hq, rfl⟩
  simp only [List.mem_singleton] at hb
  subst hb
  have hq2 : ∀ x ∈ db.permissions, ¬ x.endpoint = p0.endpoint := by
    simpa [get_permission_by_endpoint_from_MongoDB, List.find?_eq_none] using hnone
  simpa using hq2 q hq

/-- Updating a permission preserves endpoint distinctness. -/
theorem endpoints_distinct_modify (db : DB) (id : Nat) (u : UpdateAPIPermission) (db2 : DB)
    (h : modify_permission_to_MongoDB db id u = .ok db2)
    (hd : EndpointsDistinct db) : EndpointsDistinct db2 := by
  obtain ⟨old, hold, _href, rfl, hcase⟩ := modify_permission_ok db id u db2 h
  unfold EndpointsDistinct at *
  simp only [applyPermUpdate]
  rcases hcase with heq | hnone
  · have hmap := map_updateFirst_eq (fun p => p.id == id)
      (fun p => applySetDoc p (dumpUpdateAPIPermission u))
      (fun p => p.endpoint) db.permissions old
      (by simpa [find_permission_by_id] using hold)
      (by simp [applySetDoc, dumpUpdateAPIPermission, heq])
    rw [hmap]
    exact hd
  · refine pairwise_ne_map_updateFirst _ _ _ u.endpoint
      (by intro x; simp [applySetDoc, dumpUpdateAPIPermission])
      db.permissions hd ?_
    have hx2 : ∀ x ∈ db.permissions, ¬ x.endpoint = u.endpoint := by
      simpa [get_permission_by_endpoint_from_MongoDB, List.find?_eq_none] using hnone
    intro x hx
    exact hx2 x hx

/-- Deleting a permission preserves endpoint distinctness. -/
theorem endpoints_distinct_delete (db : DB) (id : Nat) (db2 : DB)
    (h : delete_permission_in_MongoDB db id = .ok db2)
    (hd : EndpointsDistinct db) : EndpointsDistinct db2 := by
  obtain rfl := delete_permission_ok db id db2 h
  unfold EndpointsDistinct at *
  exact hd.sublist ((List.eraseP_sublist db.permissions).map _)

/-- One catalog step preserves endpoint distinctness. -/
theorem endpoints_distinct_applyCatalogOp (db : DB) (op : CatalogOp)
    (hd : EndpointsDistinct db) : EndpointsDistinct (applyCatalogOp db op) := by
  cases op with
  | createP p0 =>
    cases h : add_permission_to_MongoDB db p0 with
    | ok db2 => simpa [applyCatalogOp, h] using endpoints_distinct_add db p0 db2 h hd
    | error e => simpa [applyCatalogOp, h] using hd
  | updateP id u =>
    cases h : modify_permission_to_MongoDB db id u with
    | ok db2 => simpa [applyCatalogOp, h] using endpoints_distinct_modify db id u db2 h hd
    | error e => simpa [applyCatalogOp, h] using hd
  | deleteP id =>
    cases h : delete_permission_in_MongoDB db id with
    | ok db2 => simpa [applyCatalogOp, h] using endpoints_distinct_delete db id db2 h hd
    | error e => simpa [applyCatalogOp, h] using hd

/-- Any catalog sequence preserves endpoint distinctness. -/
theorem endpoints_distinct_runCatalog (ops : List CatalogOp) : ∀ (db : DB),
    EndpointsDistinct db → EndpointsDistinct (runCatalog db ops) := by
  induction ops with
  | nil => intro db hd; exact hd
  | cons op ops ih =>
    intro db hd
    exact ih _ (endpoints_distinct_applyCatalogOp db op hd)

/-! Claim theorems. -/

/-- C1 (corrected): a permission referenced by the apilimit of any plan is
protected from every mutation, not only deletion: modify_permission on an
existing referenced permission fails with PermissionInUse regardless of
whether the update touches the endpoint field, and delete_permission fails
with PermissionInUse as well. -/
theorem C1_referenced_permission_blocks_update_and_delete
    (db : DB) (id : Nat) (pl : APIPlan) (u : UpdateAPIPermission) (old : APIPermission)
    (href : plan_referencing db id = some pl)
    (hold : find_permission_by_id db id = some old) :
    modify_permission_to_MongoDB db id u = .error .PermissionInUse ∧
    delete_permission_in_MongoDB db id = .error .PermissionInUse := by
  constructor
  · unfold modify_permission_to_MongoDB
    simp only [hold, href]
  · unfold delete_permission_in_MongoDB
    simp only [href]

/-- Store with one permission referenced by one plan, for the C1 refutation. -/
def C1db : DB :=
  { users := []
    permissions := [{ id := 1, name := "X", endpoint := API_Endpoint_Enum.random2,
                      description := "D" }]
    plans := [{ id := 1, name := "P", apilimit := [(1, 5)] }] }

/-- Update leaving the endpoint of permission 1 of C1db unchanged. -/
def C1upd : UpdateAPIPermission :=
  { name := "X2", endpoint := API_Endpoint_Enum.random2, description := "D2" }

/-- C1 refutation: an update of a plan-referenced permission that does not
touch the endpoint field is still rejected with PermissionInUse, contrary
to the claim that only deletion is blocked by a plan reference. -/
theorem C1_counterexample :
    (find_permission_by_id C1db 1).map (fun p => p.endpoint) =
      some C1upd.endpoint ∧
    (plan_referencing C1db 1).isSome = true ∧
    modify_permission_to_MongoDB C1db 1 C1upd = .error .PermissionInUse := by
  refine ⟨rfl, rfl, by decide⟩

/-- C2 (confirmed): starting from pairwise-distinct endpoints, any sequence
of catalog operations preserves pairwise distinctness of endpoints; a
create on an occupied endpoint fails with DuplicateEndpoint, and an update
changing the endpoint to one held by an existing permission fails
(with PermissionInUse when a plan references the target, with
DuplicateEndpoint otherwise). -/
theorem C2_endpoint_uniqueness :
    (∀ (db : DB) (ops : List CatalogOp), EndpointsDistinct db →
      EndpointsDistinct (runCatalog db ops)) ∧
    (∀ (db : DB) (p0 q : APIPermission),
      get_permission_by_endpoint_from_MongoDB db p0.endpoint = some q →
      add_permission_to_MongoDB db p0 = .error .DuplicateEndpoint) ∧
    (∀ (db : DB) (id : Nat) (u : UpdateAPIPermission) (old q : APIPermission),
      find_permission_by_id db id = some old →
      old.endpoint ≠ u.endpoint →
      get_permission_by_endpoint_from_MongoDB db u.endpoint = some q →
      modify_permission_to_MongoDB db id u = .error .PermissionInUse ∨
      modify_permission_to_MongoDB db id u = .error .DuplicateEndpoint) := by
  refine ⟨fun db ops hd => endpoints_distinct_runCatalog ops db hd, ?_, ?_⟩
  · intro db p0 q hq
    unfold add_permission_to_MongoDB
    simp only [hq]
  · intro db id u old q hold hne hq
    unfold modify_permission_to_MongoDB
    cases href : plan_referencing db id with
    | some pl => simp only [hold, href]; exact Or.inl trivial
    | none =>
      simp only [hold, href, if_neg hne, hq]
      exact Or.inr trivial

/-- Store with two permissions on distinct endpoints, for the C2 witness. -/
def C2db : DB :=
  { users := []
    permissions := [{ id := 1, name := "A", endpoint := API_Endpoint_Enum.random1,
                      description := "a" },
                    { id := 2, name := "B", endpoint := API_Endpoint_Enum.random2,
                      description := "b" }]
    plans := [] }

/-- Catalog sequence exercised by the C2 witness. -/
def C2ops : List CatalogOp :=
  [CatalogOp.createP { id := 0, name := "C", endpoint := API_Endpoint_Enum.random3,
                       description := "c" },
   CatalogOp.updateP 1 { name := "A2", endpoint := API_Endpoint_Enum.random4,
                         description := "a2" },
   CatalogOp.deleteP 2]

/-- Witness for C2 at concrete inputs. -/
theorem C2_witness :
    EndpointsDistinct (runCatalog C2db C2ops) ∧
    add_permission_to_MongoDB C2db
      { id := 0, name := "N", endpoint := API_Endpoint_Enum.random2, description := "n" } =
      .error .DuplicateEndpoint ∧
    (modify_permission_to_MongoDB C2db 1
        { name := "A", endpoint := API_Endpoint_Enum.random2, description := "a" } =
        .error .PermissionInUse ∨
     modify_permission_to_MongoDB C2db 1
        { name := "A", endpoint := API_Endpoint_Enum.random2, description := "a" } =
        .error .DuplicateEndpoint) :=
  ⟨C2_endpoint_uniqueness.1 C2db C2ops (by decide),
   C2_endpoint_uniqueness.2.1 C2db
     { id := 0, name := "N", endpoint := API_Endpoint_Enum.random2, description := "n" }
     { id := 2, name := "B", endpoint := API_Endpoint_Enum.random2, description := "b" }
     (by decide),
   C2_endpoint_uniqueness.2.2 C2db 1
     { name := "A", endpoint := API_Endpoint_Enum.random2, description := "a" }
     { id := 1, name := "A", endpoint := API_Endpoint_Enum.random1, description := "a" }
     { id := 2, name := "B", endpoint := API_Endpoint_Enum.random2, description := "b" }
     (by decide) (by decide) (by decide)⟩

/-- C10 (confirmed): delete_permission checks plan references before
permission existence; when the apilimit of some plan contains the id the delete
fails with PermissionInUse without consulting the permission collection
(so also when no such permission exists), and NotFound is reported exactly
when no plan references the id and the delete removed no document. -/
theorem C10_delete_checks_reference_before_existence (db : DB) (id : Nat) :
    ((plan_referencing db id).isSome = true →
      delete_permission_in_MongoDB db id = .error .PermissionInUse) ∧
    (plan_referencing db id = none → find_permission_by_id db id = none →
      delete_permission_in_MongoDB db id = .error .NotFound) := by
  constructor
  · intro h
    obtain ⟨pl, hpl⟩ := Option.isSome_iff_exists.mp h
    unfold delete_permission_in_MongoDB
    simp only [hpl]
  · intro href hnone
    unfold delete_permission_in_MongoDB
    simp only [href]
    rw [if_neg]
    simp only [find_permission_by_id] at hnone
    simp [hnone]

/-- Store with a plan referencing a permission id that has no permission
document, for the C10 witness. -/
def C10db : DB :=
  { users := []
    permissions := [{ id := 4, name := "Z", endpoint := API_Endpoint_Enum.random5,
                      description := "z" }]
    plans := [{ id := 1, name := "P", apilimit := [(9, 3)] }] }

/-- Witness for C10 at concrete inputs: id 9 is referenced but absent and
deletion reports PermissionInUse; id 8 is unreferenced and absent and
deletion reports NotFound. -/
theorem C10_witness :
    delete_permission_in_MongoDB C10db 9 = .error .PermissionInUse ∧
    delete_permission_in_MongoDB C10db 8 = .error .NotFound :=
  ⟨(C10_delete_checks_reference_before_existence C10db 9).1 (by decide),
   (C10_delete_checks_reference_before_existence C10db 8).2 (by decide) (by decide)⟩

/-- C8 (confirmed): creating a plan with an empty apilimit fails with
EmptyLimitTable; a key not resolving to a stored permission makes it fail
with UnknownPermission; when the table is non-empty and every key resolves,
the plan is inserted. Every raise happens before the insert, so a failed
precondition performs zero writes. -/
theorem C8_create_plan_checks (db : DB) (plan : APIPlan) :
    (plan.apilimit = [] → add_plan_to_MongoDB db plan = .error .EmptyLimitTable) ∧
    (∀ kv, kv ∈ plan.apilimit → find_permission_by_id db kv.1 = none →
      add_plan_to_MongoDB db plan = .error .UnknownPermission) ∧
    (plan.apilimit ≠ [] →
      (∀ kv ∈ plan.apilimit, (find_permission_by_id db kv.1).isSome = true) →
      add_plan_to_MongoDB db plan =
        .ok { db with plans := db.plans ++ [{ plan with id := freshPlanId db }] }) := by
  refine ⟨?_, ?_, ?_⟩
  · intro h
    unfold add_plan_to_MongoDB
    simp [h]
  · intro kv hmem hnone
    unfold add_plan_to_MongoDB
    rw [if_neg (by
      simp only [List.length_eq_zero]
      intro hz
      rw [hz] at hmem
      simp at hmem)]
    cases hf : plan.apilimit.find? (fun kv => (find_permission_by_id db kv.1).isNone) with
    | some _ => rfl
    | none =>
      exfalso
      exact List.find?_eq_none.mp hf kv hmem (by simp [hnone])
  · intro hne hall
    unfold add_plan_to_MongoDB
    rw [if_neg (by simpa [List.length_eq_zero] using hne)]
    rw [List.find?_eq_none.mpr ?_]
    intro kv hmem
    have h2 := hall kv hmem
    cases hf : find_permission_by_id db kv.1 with
    | none => simp [hf] at h2
    | some _ => simp [hf]

/-- Store with one permission, for the C8 witness. -/
def C8db : DB :=
  { users := []
    permissions := [{ id := 3, name := "W", endpoint := API_Endpoint_Enum.random6,
                      description := "w" }]
    plans := [] }

/-- Witness for C8 at concrete inputs. -/
theorem C8_witness :
    add_plan_to_MongoDB C8db { id := 0, name := "E", apilimit := [] } =
      .error .EmptyLimitTable ∧
    add_plan_to_MongoDB C8db { id := 0, name := "U", apilimit := [(3, 2), (12, 1)] } =
      .error .UnknownPermission ∧
    add_plan_to_MongoDB C8db { id := 0, name := "G", apilimit := [(3, 2)] } =
      .ok { C8db with plans := [{ id := 1, name := "G", apilimit := [(3, 2)] }] } :=
  ⟨(C8_create_plan_checks C8db { id := 0, name := "E", apilimit := [] }).1 rfl,
   (C8_create_plan_checks C8db { id := 0, name := "U", apilimit := [(3, 2), (12, 1)] }).2.1
     (12, 1) (by decide) (by decide),
   by
     have h := (C8_create_plan_checks C8db { id := 0, name := "G", apilimit := [(3, 2)] }).2.2
       (by decide) (by decide)
     simpa using h⟩

/-- Witness for C1 at concrete inputs. -/
theorem C1_witness :
    modify_permission_to_MongoDB C1db 1 C1upd = .error .PermissionInUse ∧
    delete_permission_in_MongoDB C1db 1 = .error .PermissionInUse :=
  C1_referenced_permission_blocks_update_and_delete C1db 1
    { id := 1, name := "P", apilimit := [(1, 5)] } C1upd
    { id := 1, name := "X", endpoint := API_Endpoint_Enum.random2, description := "D" }
    (by decide) (by decide)

/-- Reading a user back after a writeUserDoc that targets a stored user. -/
theorem get_user_writeUserDoc (db : DB) (u2 : User) (w : User)
    (h : get_user_by_id_from_MongoDB db u2.id = some w) :
    get_user_by_id_from_MongoDB (writeUserDoc db u2) u2.id =
      some { w with
        username := u2.username
        role := u2.role
        password := u2.password
        subscribed_plan_id :=
          match u2.subscribed_plan_id with
          | none => w.subscribed_plan_id
          | some x => some x
        current_api_usage := u2.current_api_usage } := by
  have hp : (fun x : User => x.id == u2.id) w = true :=
    List.find?_some (p := fun x : User => x.id == u2.id)
      (by simpa [get_user_by_id_from_MongoDB] using h)
  have hres := find?_updateFirst_self (fun x : User => x.id == u2.id)
    (fun w0 =>
      { w0 with
        username := u2.username
        role := u2.role
        password := u2.password
        subscribed_plan_id :=
          match u2.subscribed_plan_id with
          | none => w0.subscribed_plan_id
          | some x => some x
        current_api_usage := u2.current_api_usage }) db.users w
    (by simpa [get_user_by_id_from_MongoDB] using h) (by simpa using hp)
  simpa [get_user_by_id_from_MongoDB, writeUserDoc] using hres

/-- C3 (confirmed): when the plan and the user exist, subscribe succeeds,
sets subscribed_plan_id to the plan id and reinitializes current_api_usage
to a zero counter for exactly the apilimit keys of the plan, discarding
any prior counters. -/
theorem C3_subscribe_resets_usage (db : DB) (plan_id : Nat) (user : User)
    (plan : APIPlan) (w : User)
    (hplan : find_plan_by_id db plan_id = some plan)
    (huser : get_user_by_id_from_MongoDB db user.id = some w) :
    subscribe_to_plan_in_MongoDB db plan_id user =
      .ok (writeUserDoc db
        { user with
            subscribed_plan_id := some plan_id
            current_api_usage := plan.apilimit.map (fun kv => (kv.1, 0)) }) ∧
    get_user_by_id_from_MongoDB
        (writeUserDoc db
          { user with
              subscribed_plan_id := some plan_id
              current_api_usage := plan.apilimit.map (fun kv => (kv.1, 0)) })
        user.id =
      some { w with
          username := user.username
          role := user.role
          password := user.password
          subscribed_plan_id := some plan_id
          current_api_usage := plan.apilimit.map (fun kv => (kv.1, 0)) } ∧
    keysOf (plan.apilimit.map (fun kv => (kv.1, 0))) = keysOf plan.apilimit ∧
    (plan.apilimit.map (fun kv => (kv.1, 0))).all (fun kv => kv.2 == 0) = true := by
  refine ⟨?_, ?_, ?_, ?_⟩
  · unfold subscribe_to_plan_in_MongoDB
    simp only [hplan, huser]
  · exact get_user_writeUserDoc db
      { user with
          subscribed_plan_id := some plan_id
          current_api_usage := plan.apilimit.map (fun kv => (kv.1, 0)) } w huser
  · simp [keysOf, List.map_map, Function.comp]
  · simp

/-- Store and user for the C3 witness. -/
def C3db : DB :=
  { users := [{ id := 1, username := "alice", role := "user", password := "pw",
                subscribed_plan_id := none, current_api_usage := [(9, 4)] }]
    permissions := []
    plans := [{ id := 1, name := "P", apilimit := [(5, 2), (6, 3)] }] }

/-- The stored user of C3db. -/
def C3user : User :=
  { id := 1, username := "alice", role := "user", password := "pw",
    subscribed_plan_id := none, current_api_usage := [(9, 4)] }

/-- Witness for C3 at concrete inputs. -/
theorem C3_witness :
    subscribe_to_plan_in_MongoDB C3db 1 C3user =
      .ok (writeUserDoc C3db
        { C3user with
            subscribed_plan_id := some 1
            current_api_usage := [(5, 0), (6, 0)] }) ∧
    get_user_by_id_from_MongoDB
        (writeUserDoc C3db
          { C3user with
              subscribed_plan_id := some 1
              current_api_usage := [(5, 0), (6, 0)] }) 1 =
      some { id := 1, username := "alice", role := "user", password := "pw",
             subscribed_plan_id := some 1, current_api_usage := [(5, 0), (6, 0)] } := by
  have h := C3_subscribe_resets_usage C3db 1 C3user
    { id := 1, name := "P", apilimit := [(5, 2), (6, 3)] } C3user
    (by decide) (by decide)
  exact ⟨h.1, h.2.1⟩

/-- C7 (corrected): the core subscribe operation performs no role check.
For every existing user, of any role (in particular not "user"), and every
existing plan, subscribe succeeds and sets subscribed_plan_id: the role
restriction lives in the HTTP route dependency of src/main.py, not in
subscribe_to_plan_in_MongoDB. -/
theorem C7_subscribe_performs_no_role_check (db : DB) (plan_id : Nat) (user : User)
    (plan : APIPlan) (w : User)
    (hplan : find_plan_by_id db plan_id = some plan)
    (huser : get_user_by_id_from_MongoDB db user.id = some w)
    (_hrole : user.role ≠ "user") :
    subscribe_to_plan_in_MongoDB db plan_id user =
      .ok (writeUserDoc db
        { user with
            subscribed_plan_id := some plan_id
            current_api_usage := plan.apilimit.map (fun kv => (kv.1, 0)) }) ∧
    (get_user_by_id_from_MongoDB
        (writeUserDoc db
          { user with
              subscribed_plan_id := some plan_id
              current_api_usage := plan.apilimit.map (fun kv => (kv.1, 0)) })
        user.id).map (fun x => x.subscribed_plan_id) = some (some plan_id) := by
  constructor
  · unfold subscribe_to_plan_in_MongoDB
    simp only [hplan, huser]
  · rw [get_user_writeUserDoc db
      { user with
          subscribed_plan_id := some plan_id
          current_api_usage := plan.apilimit.map (fun kv => (kv.1, 0)) } w huser]
    rfl

/-- Store with an admin user and one plan, for the C7 refutation. -/
def C7db : DB :=
  { users := [{ id := 1, username := "root", role := "admin", password := "pw",
                subscribed_plan_id := none, current_api_usage := [] }]
    permissions := []
    plans := [{ id := 1, name := "P", apilimit := [(2, 3)] }] }

/-- The stored admin of C7db. -/
def C7admin : User :=
  { id := 1, username := "root", role := "admin", password := "pw",
    subscribed_plan_id := none, current_api_usage := [] }

/-- Result store of subscribing the admin of C7db. -/
def C7after : DB :=
  writeUserDoc C7db
    { C7admin with subscribed_plan_id := some 1, current_api_usage := [(2, 0)] }

/-- C7 refutation: subscribing a principal whose role is "admin" does not
fail with RoleNotEligible; it succeeds and sets subscribed_plan_id. -/
theorem C7_counterexample :
    C7admin.role = "admin" ∧
    subscribe_to_plan_in_MongoDB C7db 1 C7admin = .ok C7after ∧
    (get_user_by_id_from_MongoDB C7after 1).map (fun x => x.subscribed_plan_id) =
      some (some 1) := by
  refine ⟨rfl, by decide, by decide⟩

/-- Witness for C7 at concrete inputs. -/
theorem C7_witness :
    subscribe_to_plan_in_MongoDB C7db 1 C7admin =
      .ok (writeUserDoc C7db
        { C7admin with subscribed_plan_id := some 1, current_api_usage := [(2, 0)] }) ∧
    (get_user_by_id_from_MongoDB
        (writeUserDoc C7db
          { C7admin with subscribed_plan_id := some 1, current_api_usage := [(2, 0)] })
        1).map (fun x => x.subscribed_plan_id) = some (some 1) :=
  C7_subscribe_performs_no_role_check C7db 1 C7admin
    { id := 1, name := "P", apilimit := [(2, 3)] } C7admin
    (by decide) (by decide) (by decide)

/-- C6 (corrected): modify_permission writes all three non-identity fields
from the parsed update; a field the caller omitted was filled with the
pydantic default at parse time and overwrites the stored value rather than
keeping it. The identity field is never overwritten, and the other
collections and non-matching permissions are untouched. -/
theorem C6_update_overwrites_with_parsed_defaults (db : DB) (id : Nat)
    (b : UpdateAPIPermissionBody) (db2 : DB) (old : APIPermission)
    (hold : find_permission_by_id db id = some old)
    (h : modify_permission_to_MongoDB db id (parseUpdateAPIPermission b) = .ok db2) :
    find_permission_by_id db2 id =
      some { id := old.id
             name := (parseUpdateAPIPermission b).name
             endpoint := (parseUpdateAPIPermission b).endpoint
             description := (parseUpdateAPIPermission b).description } ∧
    db2.users = db.users ∧
    db2.plans = db.plans ∧
    ∀ q ∈ db.permissions, (q.id == id) = false → q ∈ db2.permissions := by
  obtain ⟨old2, hold2, _href, rfl, _hcase⟩ :=
    modify_permission_ok db id (parseUpdateAPIPermission b) db2 h
  rw [hold] at hold2
  injection hold2 with hold2
  subst hold2
  refine ⟨?_, rfl, rfl, ?_⟩
  · have hp : (fun q : APIPermission => q.id == id) old = true :=
      List.find?_some (p := fun q : APIPermission => q.id == id)
        (by simpa [find_permission_by_id] using hold)
    have hres := find?_updateFirst_self (fun q : APIPermission => q.id == id)
      (fun q => applySetDoc q (dumpUpdateAPIPermission (parseUpdateAPIPermission b)))
      db.permissions old (by simpa [find_permission_by_id] using hold)
      (by simpa [applySetDoc, dumpUpdateAPIPermission] using hp)
    simpa [find_permission_by_id, applyPermUpdate, applySetDoc,
      dumpUpdateAPIPermission] using hres
  · intro q hq hne
    simpa [applyPermUpdate] using
      mem_updateFirst_of_not_pred (fun q : APIPermission => q.id == id)
        (fun q => applySetDoc q (dumpUpdateAPIPermission (parseUpdateAPIPermission b)))
        db.permissions q hq hne

/-- Store with one permission, for the C6 refutation. -/
def C6db : DB :=
  { users := []
    permissions := [{ id := 1, name := "X", endpoint := API_Endpoint_Enum.random2,
                      description := "D" }]
    plans := [] }

/-- Update body supplying endpoint and description but omitting name. -/
def C6body : UpdateAPIPermissionBody :=
  { name := none, endpoint := some API_Endpoint_Enum.random2, description := some "nd" }

/-- Result store of the C6 refutation update. -/
def C6after : DB := applyPermUpdate C6db 1 (parseUpdateAPIPermission C6body)

/-- C6 refutation: the name field was not supplied by the caller, yet the
stored name changes from "X" to the parse-time default "RandomAPI1" instead
of keeping its previous value. -/
theorem C6_counterexample :
    C6body.name = none ∧
    (find_permission_by_id C6db 1).map (fun p => p.name) = some "X" ∧
    modify_permission_to_MongoDB C6db 1 (parseUpdateAPIPermission C6body) = .ok C6after ∧
    (find_permission_by_id C6after 1).map (fun p => p.name) = some "RandomAPI1" := by
  refine ⟨rfl, rfl, by decide, by decide⟩

/-- Update body supplying only the name, for the C6 witness. -/
def C6body2 : UpdateAPIPermissionBody :=
  { name := some "Y", endpoint := some API_Endpoint_Enum.random2, description := none }

/-- Witness for C6 at concrete inputs. -/
theorem C6_witness :
    find_permission_by_id (applyPermUpdate C6db 1 (parseUpdateAPIPermission C6body2)) 1 =
      some { id := 1, name := "Y", endpoint := API_Endpoint_Enum.random2,
             description := "RandomAPI1 description" } ∧
    (applyPermUpdate C6db 1 (parseUpdateAPIPermission C6body2)).users = C6db.users := by
  have h := C6_update_overwrites_with_parsed_defaults C6db 1 C6body2
    (applyPermUpdate C6db 1 (parseUpdateAPIPermission C6body2))
    { id := 1, name := "X", endpoint := API_Endpoint_Enum.random2, description := "D" }
    (by decide) (by decide)
  exact ⟨h.1, h.2.1⟩

/-- C4 (confirmed): for a stored user with role "user" and a stored
permission, recordUsage fails with PermissionNotInPlan exactly when the
permission id is not a key of the counters of the user; otherwise, for any
current counter value c — with no comparison against any plan limit — it
increments exactly that counter to c + 1, persists it, and leaves every
other counter unchanged. -/
theorem C4_record_usage (db : DB) (user : User) (perm : APIPermission)
    (u : User) (c : Nat)
    (huser : get_user_by_id_from_MongoDB db user.id = some u)
    (hrole : u.role = "user")
    (hperm : perm ∈ db.permissions) :
    (lookupKey u.current_api_usage perm.id = none →
      update_user_API_usage_in_MongoDB db user perm = .error .PermissionNotInPlan) ∧
    (lookupKey u.current_api_usage perm.id = some c →
      update_user_API_usage_in_MongoDB db user perm =
        .ok (writeUserDoc db
          { u with current_api_usage := bumpUsage u.current_api_usage perm.id }) ∧
      (get_user_by_id_from_MongoDB
          (writeUserDoc db
            { u with current_api_usage := bumpUsage u.current_api_usage perm.id })
          user.id).map (fun x => lookupKey x.current_api_usage perm.id) =
        some (some (c + 1)) ∧
      ∀ k2, k2 ≠ perm.id →
        (get_user_by_id_from_MongoDB
            (writeUserDoc db
              { u with current_api_usage := bumpUsage u.current_api_usage perm.id })
            user.id).map (fun x => lookupKey x.current_api_usage k2) =
          some (lookupKey u.current_api_usage k2)) := by
  have hid : u.id = user.id := by
    have := List.find?_some (p := fun x : User => x.id == user.id)
      (by simpa [get_user_by_id_from_MongoDB] using huser)
    simpa using this
  have hep : (get_permission_by_endpoint_from_MongoDB db perm.endpoint).isSome = true := by
    unfold get_permission_by_endpoint_from_MongoDB
    exact List.find?_isSome.mpr ⟨perm, hperm, by simp⟩
  obtain ⟨q, hq⟩ := Option.isSome_iff_exists.mp hep
  constructor
  · intro hlk
    unfold update_user_API_usage_in_MongoDB
    simp only [huser]
    rw [if_neg (by simp [hrole])]
    rw [if_pos (by simp [hlk])]
  · intro hlk
    have hread := get_user_writeUserDoc db
      { u with current_api_usage := bumpUsage u.current_api_usage perm.id } u
      (by simpa [hid] using huser)
    refine ⟨?_, ?_, ?_⟩
    · unfold update_user_API_usage_in_MongoDB
      simp only [huser]
      rw [if_neg (by simp [hrole])]
      rw [if_neg (by simp [hlk, hq])]
    · rw [hid] at hread
      rw [hid, hread]
      simp [lookupKey_bumpUsage_self u.current_api_usage perm.id c hlk]
    · intro k2 hk2
      rw [hid] at hread
      rw [hid, hread]
      simp [lookupKey_bumpUsage_other u.current_api_usage perm.id k2 hk2]

/-- Store for the C4 witness: a user with counters over keys 5 and 7, and
the stored permissions behind them. -/
def C4db : DB :=
  { users := [{ id := 1, username := "bob", role := "user", password := "pw",
                subscribed_plan_id := some 1, current_api_usage := [(5, 2), (7, 9)] }]
    permissions := [{ id := 5, name := "R1", endpoint := API_Endpoint_Enum.random1,
                      description := "d1" },
                    { id := 6, name := "R2", endpoint := API_Endpoint_Enum.random2,
                      description := "d2" }]
    plans := [{ id := 1, name := "P", apilimit := [(5, 3), (7, 1)] }] }

/-- The stored user of C4db. -/
def C4user : User :=
  { id := 1, username := "bob", role := "user", password := "pw",
    subscribed_plan_id := some 1, current_api_usage := [(5, 2), (7, 9)] }

/-- Witness for C4 at concrete inputs: permission 6 is not a counter key
and recording fails; permission 5 has counter 2 and recording stores 3,
with no limit comparison although the plan ceiling for key 5 is 3. -/
theorem C4_witness :
    update_user_API_usage_in_MongoDB C4db C4user
      { id := 6, name := "R2", endpoint := API_Endpoint_Enum.random2, description := "d2" } =
      .error .PermissionNotInPlan ∧
    (get_user_by_id_from_MongoDB
        (writeUserDoc C4db
          { C4user with current_api_usage := bumpUsage C4user.current_api_usage 5 })
        1).map (fun x => lookupKey x.current_api_usage 5) = some (some 3) := by
  have h1 := C4_record_usage C4db C4user
    { id := 6, name := "R2", endpoint := API_Endpoint_Enum.random2, description := "d2" }
    C4user 0 (by decide) (by decide) (by decide)
  have h2 := C4_record_usage C4db C4user
    { id := 5, name := "R1", endpoint := API_Endpoint_Enum.random1, description := "d1" }
    C4user 2 (by decide) (by decide) (by decide)
  exact ⟨h1.1 (by decide), (h2.2 (by decide)).2.1⟩

/-- C5 (confirmed): for a stored "user"-role user subscribed to plan_id
with non-empty counters (counters of subscribed users are never empty,
since plans have non-empty apilimit), changePlan to the same plan fails
with UsageKeySetMismatch whenever the proposed key set differs from the
current one, and when the key sets agree it replaces the counters wholesale
with the proposed values, with no per-key bound check against plan limits. -/
theorem C5_change_plan_same_plan (db : DB) (user_id plan_id : Nat)
    (stats : UpdateAPIUsageStats) (user : User)
    (huser : get_user_by_id_from_MongoDB db user_id = some user)
    (hrole : user.role = "user")
    (hsub : user.subscribed_plan_id = some plan_id)
    (hne : user.current_api_usage ≠ [])
    (hnodupOld : (keysOf user.current_api_usage).Nodup)
    (hnodupNew : (keysOf stats.current_api_usage).Nodup) :
    (sameKeySet user.current_api_usage stats.current_api_usage = false →
      update_user_API_plan db user_id plan_id stats = .error .UsageKeySetMismatch) ∧
    (sameKeySet user.current_api_usage stats.current_api_usage = true →
      update_user_API_plan db user_id plan_id stats =
        .ok (writeUserDoc db { user with current_api_usage := stats.current_api_usage }) ∧
      get_user_by_id_from_MongoDB
          (writeUserDoc db { user with current_api_usage := stats.current_api_usage })
          user_id =
        some { user with current_api_usage := stats.current_api_usage }) := by
  have hid : user.id = user_id := by
    have := List.find?_some (p := fun x : User => x.id == user_id)
      (by simpa [get_user_by_id_from_MongoDB] using huser)
    simpa using this
  constructor
  · intro hsame
    unfold update_user_API_plan
    simp only [huser]
    rw [if_neg (by simp [hrole])]
    simp only [hsub]
    rw [if_pos trivial]
    by_cases hcond : stats.current_api_usage.isEmpty = true ∨
        stats.current_api_usage.length ≠ user.current_api_usage.length
    · rw [if_pos hcond]
    · rw [if_neg hcond]
      rw [if_neg (by simp [hsame])]
  · intro hsame
    have hsame2 : (∀ k ∈ keysOf user.current_api_usage,
        k ∈ keysOf stats.current_api_usage) ∧
        (∀ k ∈ keysOf stats.current_api_usage, k ∈ keysOf user.current_api_usage) := by
      simpa [sameKeySet, Bool.and_eq_true, List.all_eq_true] using hsame
    have hmem : ∀ k, k ∈ keysOf user.current_api_usage ↔
        k ∈ keysOf stats.current_api_usage :=
      fun k => ⟨hsame2.1 k, hsame2.2 k⟩
    have hfin : (keysOf user.current_api_usage).toFinset =
        (keysOf stats.current_api_usage).toFinset := by
      ext k
      simp only [List.mem_toFinset]
      exact hmem k
    have hlen : stats.current_api_usage.length = user.current_api_usage.length := by
      have h1 := List.toFinset_card_of_nodup hnodupOld
      have h2 := List.toFinset_card_of_nodup hnodupNew
      have h3 : (keysOf stats.current_api_usage).length =
          (keysOf user.current_api_usage).length := by
        rw [← h2, ← h1, hfin]
      simpa [keysOf] using h3
    have hnemp : stats.current_api_usage ≠ [] := by
      intro hz
      cases hcu : user.current_api_usage with
      | nil => exact hne hcu
      | cons kv rest =>
        have hk : kv.1 ∈ keysOf user.current_api_usage := by simp [keysOf, hcu]
        have hk2 := (hmem kv.1).mp hk
        rw [hz] at hk2
        simp [keysOf] at hk2
    refine ⟨?_, ?_⟩
    · unfold update_user_API_plan
      simp only [huser]
      rw [if_neg (by simp [hrole])]
      simp only [hsub]
      rw [if_pos trivial]
      rw [if_neg (by simp [List.isEmpty_iff, hnemp, hlen])]
      rw [if_pos hsame]
    · have hread := get_user_writeUserDoc db
        { user with current_api_usage := stats.current_api_usage } user
        (by simpa [hid] using huser)
      rw [hid] at hread
      rw [hid, hread]
      simp [hsub]

/-- Store for the C5 witness: a subscribed user with one counter. -/
def C5db : DB :=
  { users := [{ id := 1, username := "carol", role := "user", password := "pw",
                subscribed_plan_id := some 1, current_api_usage := [(5, 1)] }]
    permissions := []
    plans := [{ id := 1, name := "P", apilimit := [(5, 2)] }] }

/-- The stored user of C5db. -/
def C5user : User :=
  { id := 1, username := "carol", role := "user", password := "pw",
    subscribed_plan_id := some 1, current_api_usage := [(5, 1)] }

/-- Witness for C5 at concrete inputs: a proposed table keyed by 6 instead
of 5 is rejected, and a proposed table keyed by 5 with value 3 replaces the
counters even though 3 exceeds the plan ceiling for key 5. -/
theorem C5_witness :
    update_user_API_plan C5db 1 1 { current_api_usage := [(6, 2)] } =
      .error .UsageKeySetMismatch ∧
    update_user_API_plan C5db 1 1 { current_api_usage := [(5, 3)] } =
      .ok (writeUserDoc C5db { C5user with current_api_usage := [(5, 3)] }) := by
  have h1 := C5_change_plan_same_plan C5db 1 1 { current_api_usage := [(6, 2)] } C5user
    (by decide) (by decide) (by decide) (by decide) (by decide) (by decide)
  have h2 := C5_change_plan_same_plan C5db 1 1 { current_api_usage := [(5, 3)] } C5user
    (by decide) (by decide) (by decide) (by decide) (by decide) (by decide)
  exact ⟨h1.1 (by decide), (h2.2 (by decide)).1⟩

/-- Store for the C9 analysis: one "user"-role user whose counter for
permission 7 is 0, with the permission stored. -/
def C9db : DB :=
  { users := [{ id := 1, username := "dave", role := "user", password := "pw",
                subscribed_plan_id := some 1, current_api_usage := [(7, 0)] }]
    permissions := [{ id := 7, name := "R1", endpoint := API_Endpoint_Enum.random1,
                      description := "d" }]
    plans := [{ id := 1, name := "P", apilimit := [(7, 5)] }] }

/-- The stored user of C9db. -/
def C9user : User :=
  { id := 1, username := "dave", role := "user", password := "pw",
    subscribed_plan_id := some 1, current_api_usage := [(7, 0)] }

/-- The stored permission of C9db. -/
def C9perm : APIPermission :=
  { id := 7, name := "R1", endpoint := API_Endpoint_Enum.random1, description := "d" }

/-- Interleaving of two concurrent recordUsage invocations in which both
read the user document before either writes: read A, read B, write A,
write B. -/
def C9interleaved : DB :=
  match recordUsageRead C9db 1, recordUsageRead C9db 1 with
  | some a, some b => recordUsageWrite (recordUsageWrite C9db a 7) b 7
  | _, _ => C9db

/-- The same two invocations run to completion one after the other. -/
def C9sequential : DB :=
  match update_user_API_usage_in_MongoDB C9db C9user C9perm with
  | .ok db2 =>
    match update_user_API_usage_in_MongoDB db2 C9user C9perm with
    | .ok db3 => db3
    | .error _ => db2
  | .error _ => C9db

/-- C9 (code bug): recordUsage is a non-atomic read-then-set, so the
read-read-write-write interleaving of two invocations leaves the stored
counter at 1, while the same two invocations run sequentially leave it
at 2 — an increment is lost, contrary to the claim that N concurrent
invocations always increase the counter by exactly N. -/
theorem C9_lost_update :
    (get_user_by_id_from_MongoDB C9interleaved 1).map
      (fun x => lookupKey x.current_api_usage 7) = some (some 1) ∧
    (get_user_by_id_from_MongoDB C9sequential 1).map
      (fun x => lookupKey x.current_api_usage 7) = some (some 2) := by
  refine ⟨by decide, by decide⟩
